import Mathlib

/-!
Verification of the agent-net-sandbox orchestrator core
(src/agents/orchestrator/src/orchestrator/{models,discovery,agent}.py and
protocols/{base,acp_discovery,a2a_discovery,mcp_discovery}.py).

The Python code is shallowly embedded:
  * pydantic models become structures; fields whose contents no claim
    depends on (opaque JSON payloads such as capability input/output
    schemas, usage examples, and free-form metadata dicts) are omitted;
  * dicts keyed by strings become association lists (Python dict keys are
    unique; insertion order is preserved by both representations);
  * datetimes become integer timestamps measured in seconds
    (so timedelta(hours=1) is the constant 3600);
  * network calls (HTTP fetches, health probes, the LLM backend call)
    are the model boundary: each fallible call site becomes an explicit
    outcome value, with a dedicated constructor for the call raising;
  * in-place mutation of registry entries becomes functional record
    update, which agrees with the source because the registry dict is
    rebuilt wholesale on every reconciliation cycle.
-/

namespace Orchestrator

/-- Model of Python str.lower() (ASCII case folding), written over the
character list so that it evaluates inside the kernel. -/
def pyLower (s : String) : String :=
  String.mk (s.data.map Char.toLower)

/-- Model of Python str.strip(): drop whitespace from both ends. -/
def pyStrip (s : String) : String :=
  String.mk (((s.data.dropWhile Char.isWhitespace).reverse.dropWhile Char.isWhitespace).reverse)

/-- Split a character list at every occurrence of the separator. -/
def splitOnChar (sep : Char) : List Char → List (List Char)
  | [] => [[]]
  | c :: rest =>
      let r := splitOnChar sep rest
      if c = sep then [] :: r
      else
        match r with
        | [] => [[c]]
        | h :: t => (c :: h) :: t

/-- Model of Python s.split(sep) for a one-character separator. -/
def pySplit (s : String) (sep : Char) : List String :=
  (splitOnChar sep s.data).map String.mk

/-- Protocol types, models.py ProtocolType. -/
inductive ProtocolType where
  | acp
  | a2a
  | mcp
  | custom
deriving DecidableEq, Repr

/-- The string value of a ProtocolType member (the str-enum value). -/
def ProtocolType.value : ProtocolType → String
  | .acp => "acp"
  | .a2a => "a2a"
  | .mcp => "mcp"
  | .custom => "custom"

/-- Agent health statuses, models.py AgentStatus. -/
inductive AgentStatus where
  | healthy
  | degraded
  | unhealthy
  | unknown
deriving DecidableEq, Repr

/-- A capability an agent provides, models.py AgentCapability.
Opaque payload fields (input_schema, output_schema, examples) are omitted:
no claim mentions them. -/
structure AgentCapability where
  name : String
  description : String
  tags : List String
deriving DecidableEq, Repr

/-- Constructor applying the pydantic field validator for AgentCapability:
the name is stripped and lowercased on construction (validate_name in
models.py).  Call sites in the source guard against empty names, so the
validator's ValueError branch is unreachable there. -/
def mkCapability (name description : String) (tags : List String) : AgentCapability :=
  { name := pyLower (pyStrip name), description := description, tags := tags }

/-- A discovered agent, models.py DiscoveredAgent.  The free-form metadata
dict and discovered_at timestamp are omitted (no claim mentions them). -/
structure DiscoveredAgent where
  agent_id : String
  name : String
  protocol : ProtocolType
  endpoint : String
  capabilities : List AgentCapability
  status : AgentStatus
  last_health_check : Option Int
  container_id : Option String
  version : Option String
deriving DecidableEq, Repr

/-- models.py DiscoveredAgent.get_capability_names. -/
def DiscoveredAgent.get_capability_names (a : DiscoveredAgent) : List String :=
  a.capabilities.map (fun cap => cap.name)

/-- models.py DiscoveredAgent.has_capability: membership of the lowercased
query in the list of capability names.  Note the source consults only the
names, not the tags. -/
def DiscoveredAgent.has_capability (a : DiscoveredAgent) (capability_name : String) : Bool :=
  (a.get_capability_names).contains (pyLower capability_name)

/-- models.py DiscoveredAgent.is_healthy. -/
def DiscoveredAgent.is_healthy (a : DiscoveredAgent) : Bool :=
  a.status = AgentStatus.healthy

/-- A registry entry, models.py AgentRegistryEntry. -/
structure AgentRegistryEntry where
  agent : DiscoveredAgent
  last_seen : Int
  consecutive_failures : Nat
  request_count : Nat
  last_request : Option Int
deriving DecidableEq, Repr

/-- models.py AgentRegistryEntry.mark_request. -/
def mark_request (e : AgentRegistryEntry) (now : Int) : AgentRegistryEntry :=
  { e with request_count := e.request_count + 1, last_request := some now }

/-- models.py AgentRegistryEntry.mark_failure. -/
def mark_failure (e : AgentRegistryEntry) : AgentRegistryEntry :=
  { e with consecutive_failures := e.consecutive_failures + 1 }

/-- models.py AgentRegistryEntry.mark_success. -/
def mark_success (e : AgentRegistryEntry) (now : Int) : AgentRegistryEntry :=
  { e with consecutive_failures := 0, last_seen := now }

/-- models.py AgentRegistryEntry.should_remove (the source defaults
max_failures to 5; callers pass nothing, so every use below passes 5). -/
def should_remove (e : AgentRegistryEntry) (max_failures : Nat) : Bool :=
  decide (max_failures ≤ e.consecutive_failures)

/-- The registry: models.py AgentRegistry = Dict[str, AgentRegistryEntry],
modelled as an association list with unique keys. -/
abbrev AgentRegistry := List (String × AgentRegistryEntry)

/-- Dict lookup on the registry. -/
def lookupEntry (reg : AgentRegistry) (agent_id : String) : Option AgentRegistryEntry :=
  (reg.find? (fun p => p.1 = agent_id)).map (fun p => p.2)

/-- Dict assignment reg[agent_id] = e: overwrite in place if the key is
present, else append (Python dicts keep insertion order). -/
def insertEntry (reg : AgentRegistry) (agent_id : String) (e : AgentRegistryEntry) : AgentRegistry :=
  if reg.any (fun p => p.1 = agent_id) then
    reg.map (fun p => if p.1 = agent_id then (p.1, e) else p)
  else
    reg ++ [(agent_id, e)]

/-- discovery.py UnifiedDiscoveryService.get_all_agents. -/
def get_all_agents (reg : AgentRegistry) : List DiscoveredAgent :=
  reg.map (fun p => p.2.agent)

/-- discovery.py UnifiedDiscoveryService.get_healthy_agents. -/
def get_healthy_agents (reg : AgentRegistry) : List DiscoveredAgent :=
  (reg.filter (fun p => p.2.agent.status = AgentStatus.healthy)).map (fun p => p.2.agent)

/-- discovery.py UnifiedDiscoveryService.get_agents_by_capability. -/
def get_agents_by_capability (reg : AgentRegistry) (capability_name : String) : List DiscoveredAgent :=
  (reg.filter (fun p => p.2.agent.has_capability capability_name)).map (fun p => p.2.agent)

/-- discovery.py UnifiedDiscoveryService.mark_agent_request: a no-op when
the id is absent, otherwise updates that entry in place. -/
def mark_agent_request (reg : AgentRegistry) (agent_id : String) (now : Int) : AgentRegistry :=
  match lookupEntry reg agent_id with
  | none => reg
  | some _ => reg.map (fun p => if p.1 = agent_id then (p.1, mark_request p.2 now) else p)

/-- discovery.py UnifiedDiscoveryService._cleanup_registry: drop entries
last seen before now - 1 hour, then entries with should_remove().  The
source collects ids into to_remove and deletes them afterwards, which is
the same as filtering on the kept condition. -/
def cleanup_registry (reg : AgentRegistry) (now : Int) : AgentRegistry :=
  let cutoff := now - 3600
  reg.filter (fun p => !(decide (p.2.last_seen < cutoff)) && !(should_remove p.2 5))

/-- Outcome of the strategy.health_check call made for each discovered
agent inside _update_registry: either a returned status, or the call (or
the strategy lookup) raised, which the source catches and treats as
status UNKNOWN plus a failure mark. -/
inductive HealthResult where
  | ok (status : AgentStatus)
  | err
deriving DecidableEq, Repr

/-- A fresh AgentRegistryEntry(agent=agent): the pydantic defaults give
last_seen = now, zero consecutive_failures, zero request_count. -/
def newEntry (agent : DiscoveredAgent) (now : Int) : AgentRegistryEntry :=
  { agent := agent, last_seen := now, consecutive_failures := 0,
    request_count := 0, last_request := none }

/-- The body of _update_registry's loop over discovered agents
(discovery.py lines 283-317): reuse the existing entry for this agent_id
(replacing entry.agent and calling mark_success) or create a fresh entry,
then run the health check; a Healthy result marks success, any other
result or a raised check marks failure (a raised check also sets the
agent status to UNKNOWN and leaves last_health_check untouched). -/
def processDiscovered (reg : AgentRegistry) (health : String → HealthResult)
    (now : Int) (agent : DiscoveredAgent) : AgentRegistryEntry :=
  let entry :=
    match lookupEntry reg agent.agent_id with
    | some existing => mark_success { existing with agent := agent } now
    | none => newEntry agent now
  match health agent.agent_id with
  | .ok s =>
      let checked := { entry with agent := { entry.agent with status := s, last_health_check := some now } }
      if s = AgentStatus.healthy then mark_success checked now else mark_failure checked
  | .err =>
      let checked := { entry with agent := { entry.agent with status := AgentStatus.unknown } }
      mark_failure checked

/-- discovery.py UnifiedDiscoveryService._update_registry: build a new
registry from the discovered agents, then preserve every old entry that
was not rediscovered, marking it failed and dropping it when
should_remove() (the dict iteration plus conditional insertion is a
filterMap because registry keys are unique). -/
def update_registry (reg : AgentRegistry) (discovered : List DiscoveredAgent)
    (health : String → HealthResult) (now : Int) : AgentRegistry :=
  let newReg := discovered.foldl
    (fun acc agent => insertEntry acc agent.agent_id (processDiscovered reg health now agent)) []
  newReg ++ reg.filterMap (fun p =>
    if (lookupEntry newReg p.1).isSome then none
    else
      let failed := mark_failure p.2
      if should_remove failed 5 then none else some (p.1, failed))

/-- Outcome of the _discover_agents_http step inside refresh: a list of
discovered agents, or the step raised. -/
inductive DiscoveryOutcome where
  | ok (agents : List DiscoveredAgent)
  | raised
deriving Repr

/-- discovery.py UnifiedDiscoveryService.refresh: discovery, registry
merge, then cleanup, all inside one try block whose except handler only
logs, so a raised discovery step leaves the registry untouched.  (The
merge and cleanup steps are total: every fallible call they make is
caught inside them, which the embedding reflects by making them total
functions.) -/
def refresh (reg : AgentRegistry) (outcome : DiscoveryOutcome)
    (health : String → HealthResult) (now : Int) : AgentRegistry :=
  match outcome with
  | .ok agents => cleanup_registry (update_registry reg agents health now) now
  | .raised => reg

/-- What the ACP health_check sees from its GET {endpoint}/health call:
either the request (or client construction) raised — connection error,
timeout — or a response arrived with a status code; for a response, the
extraction response.json().get("status", "") either yields a string
(missing field giving "") or raises (unparseable body, non-dict JSON,
non-string status value), modelled as Except. -/
inductive AcpHealthFetch where
  | fetchError
  | response (status_code : Nat) (json_status : Except Unit String)
deriving Repr

/-- The status-string mapping of acp_discovery.py health_check (lines
85-94), applied to the already-lowercased self-reported status: the
elif chains on literal lists become disjunctions, and the final Python
truthiness test (HEALTHY if status else UNKNOWN) is the emptiness test. -/
def acp_map_status (status : String) : AgentStatus :=
  if status = "healthy" then AgentStatus.healthy
  else if status = "degraded" ∨ status = "warning" then AgentStatus.degraded
  else if status = "unhealthy" ∨ status = "error" ∨ status = "critical" then AgentStatus.unhealthy
  else if status ≠ "" then AgentStatus.healthy else AgentStatus.unknown

/-- acp_discovery.py ACPDiscoveryStrategy.health_check: a 200 response has
its body status mapped (a raise inside the try, e.g. an unparseable body,
falls into the outer except and yields UNKNOWN); any non-200 response is
UNHEALTHY; a raised request is UNKNOWN.  The function is total: no
exception escapes. -/
def acp_health_check (fetch : AcpHealthFetch) : AgentStatus :=
  match fetch with
  | .fetchError => AgentStatus.unknown
  | .response status_code json_status =>
      if status_code = 200 then
        match json_status with
        | .error _ => AgentStatus.unknown
        | .ok raw => acp_map_status (pyLower raw)
      else AgentStatus.unhealthy

/-- Supported LLM providers, models.py LLMProvider. -/
inductive LLMProvider where
  | openai
  | anthropic
deriving DecidableEq, Repr

/-- A routing request, models.py RoutingRequest (the free-form context
payload and timeout are omitted: no claim mentions them). -/
structure RoutingRequest where
  request_id : String
  query : String
  preferred_agent : Option String
deriving DecidableEq, Repr

/-- The AI agent's routing decision, models.py RoutingDecision.
Confidence and timing are rationals: the source only ever stores literal
values (0.0 on the failure path) and never computes with them. -/
structure RoutingDecision where
  request_id : String
  selected_agent : Option DiscoveredAgent
  reasoning : String
  confidence : ℚ
  alternative_agents : List DiscoveredAgent
  error : Option String
  decision_time_ms : Option ℚ
  llm_provider : Option LLMProvider
deriving DecidableEq, Repr

/-- Outcome of the pydantic-ai self.agent.run call inside route_request:
a decision, or any raised exception carrying its message str(e). -/
inductive AgentRunOutcome where
  | ok (decision : RoutingDecision)
  | raised (msg : String)
deriving DecidableEq, Repr

/-- agent.py OrchestratorAgent.route_request (lines 204-284): on success
the backend's decision is returned with timing and provider stamped on;
on any exception the except arm returns a fallback decision with no
selected agent, confidence 0.0, and the error text in both reasoning and
error.  Metrics bookkeeping is omitted (no claim mentions it). -/
def route_request (request : RoutingRequest) (run : AgentRunOutcome)
    (duration_ms : ℚ) (provider : LLMProvider) : RoutingDecision :=
  match run with
  | .ok d =>
      { d with decision_time_ms := some duration_ms, llm_provider := some provider }
  | .raised msg =>
      { request_id := request.request_id
        selected_agent := none
        reasoning := "Routing failed due to error: " ++ msg
        confidence := 0
        alternative_agents := []
        error := some msg
        decision_time_ms := some duration_ms
        llm_provider := some provider }

/-- An agent response, models.py AgentResponse; the reason field models
metadata["reason"], and the payload/timing fields are omitted. -/
structure AgentResponse where
  request_id : String
  agent_id : String
  protocol : ProtocolType
  success : Bool
  error : Option String
  reason : Option String
deriving DecidableEq, Repr

/-- agent.py OrchestratorAgent.process_request (lines 286-373) after the
routing step: given the routing decision and the healthy-agent list
re-fetched at execution time, either report no agent selected, report the
selected agent gone from the healthy set, or execute (the execution
placeholder always succeeds in the source). -/
def process_request (request : RoutingRequest) (decision : RoutingDecision)
    (healthy : List DiscoveredAgent) : AgentResponse :=
  match decision.selected_agent with
  | none =>
      { request_id := request.request_id
        agent_id := "none"
        protocol := ProtocolType.custom
        success := false
        error := some "No suitable agent found for this request"
        reason := some "no_agent_selected" }
  | some selected =>
      if healthy.any (fun a => a.agent_id = selected.agent_id) then
        { request_id := request.request_id
          agent_id := selected.agent_id
          protocol := selected.protocol
          success := true
          error := none
          reason := none }
      else
        { request_id := request.request_id
          agent_id := selected.agent_id
          protocol := selected.protocol
          success := false
          error := some ("Selected agent " ++ selected.agent_id ++ " is no longer available")
          reason := some "agent_not_available" }

/-- Result of extract_base_info (protocols/base.py lines 27-55): the
static hint metadata a strategy starts from.  The port is None when no
exposed port could be found. -/
structure BaseInfo where
  container_id : String
  container_name : String
  version : String
  port : Option Nat
  labels : List (String × String)
deriving DecidableEq, Repr

/-- Python labels.get(key, default) on a container-label dict. -/
def labelsGetD (labels : List (String × String)) (key default_value : String) : String :=
  match labels.find? (fun p => p.1 = key) with
  | some p => p.2
  | none => default_value

/-- protocols/base.py _build_endpoint_url: container name plus port
(default 8000). -/
def build_endpoint_url (base : BaseInfo) : String :=
  "http://" ++ base.container_name ++ ":" ++ toString (base.port.getD 8000)

/-- A raw capability entry in a fetched JSON list: a dict (with optional
name, description and a tags list) or a plain string. -/
inductive RawCapability where
  | dict (name : Option String) (description : Option String) (tags : List String)
  | str (s : String)
deriving DecidableEq, Repr

/-- The document fetched from {endpoint}/schema: empty models the falsy
empty dict.  The schema payloads themselves are opaque and dropped, as in
the AgentCapability model. -/
inductive SchemaData where
  | empty
  | nonempty
deriving DecidableEq, Repr

/-- acp_discovery.py _parse_acp_capabilities: convert fetched entries,
and when none were found but a schema document exists, infer one generic
capability from it. -/
def parse_acp_capabilities (cap_list : List RawCapability) (schema_data : SchemaData) : List AgentCapability :=
  let capabilities := cap_list.map (fun cap =>
    match cap with
    | .dict name description tags =>
        mkCapability (name.getD "unknown") (description.getD "") (["acp"] ++ tags)
    | .str s =>
        mkCapability s ("ACP capability: " ++ s) ["acp", "string-capability"])
  if capabilities.isEmpty = true ∧ schema_data = SchemaData.nonempty then
    [mkCapability "generic" "Generic ACP agent capability" ["acp", "schema-inferred"]]
  else capabilities

/-- acp_discovery.py _fallback_discovery: build an agent from the
agent.capabilities label (comma-separated names), or a single generic
unknown capability; it always produces an agent. -/
def acp_fallback_discovery (base : BaseInfo) (endpoint : String) : DiscoveredAgent :=
  let cap_string := labelsGetD base.labels "agent.capabilities" ""
  let caps :=
    if cap_string = "" then []
    else (pySplit cap_string ',').filterMap (fun raw =>
      let cap_name := pyStrip raw
      if cap_name = "" then none
      else some (mkCapability cap_name ("ACP capability: " ++ cap_name) ["acp", "label-fallback"]))
  let capabilities :=
    if caps.isEmpty then
      [mkCapability "unknown" "ACP agent with unknown capabilities" ["acp", "fallback"]]
    else caps
  { agent_id := "acp-" ++ base.container_name
    name := labelsGetD base.labels "agent.name" base.container_name
    protocol := ProtocolType.acp
    endpoint := endpoint
    capabilities := capabilities
    status := AgentStatus.unknown
    last_health_check := none
    container_id := some base.container_id
    version := some base.version }

/-- Outcome of the ACP native-discovery try block: the fetched data (the
helpers _fetch_capabilities and _fetch_schema catch their own errors and
return empty documents, so all-calls-failed is fetched none [] empty), or
the block raised (client failure, non-dict payload, invalid capability
entry), triggering the label fallback. -/
inductive AcpNativeFetch where
  | fetched (name : Option String) (cap_list : List RawCapability) (schema_data : SchemaData)
  | raised
deriving Repr

/-- acp_discovery.py ACPDiscoveryStrategy.discover. -/
def acp_discover (base : BaseInfo) (native : AcpNativeFetch) : Option DiscoveredAgent :=
  match base.port with
  | none => none
  | some _ =>
      let endpoint := build_endpoint_url base
      match native with
      | .raised => some (acp_fallback_discovery base endpoint)
      | .fetched name cap_list schema_data =>
          let capabilities := parse_acp_capabilities cap_list schema_data
          let fetched_name := name.getD base.container_name
          let agent_name :=
            if fetched_name = "" ∨ fetched_name = "unknown" then
              labelsGetD base.labels "agent.name" base.container_name
            else fetched_name
          some { agent_id := "acp-" ++ base.container_name
                 name := agent_name
                 protocol := ProtocolType.acp
                 endpoint := endpoint
                 capabilities := capabilities
                 status := AgentStatus.healthy
                 last_health_check := none
                 container_id := some base.container_id
                 version := some base.version }

/-- The parsed agent-info document _query_a2a_agent may return. -/
structure A2AAgentInfo where
  agent_id : Option String
  name : Option String
  services : List RawCapability
  supported_actions : List RawCapability
  capabilities : List RawCapability
deriving DecidableEq, Repr

/-- a2a_discovery.py _parse_a2a_capabilities: services, then supported
actions (whose dict branch carries no extra tags), then the capabilities
array. -/
def parse_a2a_capabilities (info : A2AAgentInfo) : List AgentCapability :=
  (info.services.map (fun s =>
    match s with
    | .dict name description tags =>
        mkCapability (name.getD "unknown") (description.getD "") (["a2a", "service"] ++ tags)
    | .str s => mkCapability s ("A2A service: " ++ s) ["a2a", "service"])) ++
  (info.supported_actions.map (fun a =>
    match a with
    | .dict name description _ =>
        mkCapability (name.getD "unknown")
          (description.getD ("Action: " ++ (name.getD "unknown"))) ["a2a", "action"]
    | .str s => mkCapability s ("A2A action: " ++ s) ["a2a", "action"])) ++
  (info.capabilities.map (fun c =>
    match c with
    | .dict name description tags =>
        mkCapability (name.getD "unknown") (description.getD "") (["a2a"] ++ tags)
    | .str s => mkCapability s ("A2A capability: " ++ s) ["a2a"]))

/-- a2a_discovery.py _fallback_discovery: like the ACP fallback, from the
agent.capabilities label or one generic unknown capability. -/
def a2a_fallback_discovery (base : BaseInfo) (endpoint : String) : DiscoveredAgent :=
  let cap_string := labelsGetD base.labels "agent.capabilities" ""
  let caps :=
    if cap_string = "" then []
    else (pySplit cap_string ',').filterMap (fun raw =>
      let cap_name := pyStrip raw
      if cap_name = "" then none
      else some (mkCapability cap_name ("A2A capability: " ++ cap_name) ["a2a", "label-fallback"]))
  let capabilities :=
    if caps.isEmpty then
      [mkCapability "unknown" "A2A agent with unknown capabilities" ["a2a", "fallback"]]
    else caps
  { agent_id := "a2a-" ++ base.container_name
    name := labelsGetD base.labels "agent.name" base.container_name
    protocol := ProtocolType.a2a
    endpoint := endpoint
    capabilities := capabilities
    status := AgentStatus.unknown
    last_health_check := none
    container_id := some base.container_id
    version := some base.version }

/-- Outcome of _query_a2a_agent plus the surrounding try block: a parsed
info document, None (every discovery method failed, handled by the else
branch), or a raised exception (handled by the except branch); the source
falls back to labels in the latter two cases alike. -/
inductive A2AQueryOutcome where
  | info (data : A2AAgentInfo)
  | noInfo
  | raised
deriving Repr

/-- a2a_discovery.py A2ADiscoveryStrategy.discover. -/
def a2a_discover (base : BaseInfo) (query : A2AQueryOutcome) : Option DiscoveredAgent :=
  match base.port with
  | none => none
  | some _ =>
      let endpoint := build_endpoint_url base
      match query with
      | .info d =>
          some { agent_id := d.agent_id.getD ("a2a-" ++ base.container_name)
                 name := d.name.getD base.container_name
                 protocol := ProtocolType.a2a
                 endpoint := endpoint
                 capabilities := parse_a2a_capabilities d
                 status := AgentStatus.healthy
                 last_health_check := none
                 container_id := some base.container_id
                 version := some base.version }
      | .noInfo => some (a2a_fallback_discovery base endpoint)
      | .raised => some (a2a_fallback_discovery base endpoint)

/-- An MCP tool or resource entry (a dict with optional name, description
and tags; schema payloads dropped). -/
structure McpItem where
  name : Option String
  description : Option String
  tags : List String
deriving DecidableEq, Repr

/-- mcp_discovery.py _parse_mcp_capabilities: tools and resources become
prefixed capabilities; when both lists are empty, one generic mcp-server
capability. -/
def parse_mcp_capabilities (tools resources : List McpItem) : List AgentCapability :=
  let capabilities :=
    (tools.map (fun t =>
      mkCapability ("tool:" ++ (t.name.getD "unknown"))
        (t.description.getD ("MCP tool: " ++ (t.name.getD "unknown"))) (["mcp", "tool"] ++ t.tags))) ++
    (resources.map (fun r =>
      mkCapability ("resource:" ++ (r.name.getD "unknown"))
        (r.description.getD ("MCP resource: " ++ (r.name.getD "unknown"))) (["mcp", "resource"] ++ r.tags)))
  if capabilities.isEmpty then
    [mkCapability "mcp-server" "MCP server with unknown tools/resources" ["mcp", "generic"]]
  else capabilities

/-- mcp_discovery.py _fallback_discovery. -/
def mcp_fallback_discovery (base : BaseInfo) (endpoint : String) : DiscoveredAgent :=
  let cap_string := labelsGetD base.labels "agent.capabilities" ""
  let caps :=
    if cap_string = "" then []
    else (pySplit cap_string ',').filterMap (fun raw =>
      let cap_name := pyStrip raw
      if cap_name = "" then none
      else some (mkCapability cap_name ("MCP capability: " ++ cap_name) ["mcp", "label-fallback"]))
  let capabilities :=
    if caps.isEmpty then
      [mkCapability "unknown" "MCP agent with unknown capabilities" ["mcp", "fallback"]]
    else caps
  { agent_id := "mcp-" ++ base.container_name
    name := labelsGetD base.labels "agent.name" base.container_name
    protocol := ProtocolType.mcp
    endpoint := endpoint
    capabilities := capabilities
    status := AgentStatus.unknown
    last_health_check := none
    container_id := some base.container_id
    version := some base.version }

/-- Outcome of the MCP native-discovery try block: fetched tool/resource
lists and server name (the helper fetchers catch their own errors and
return empty documents), or the block raised, triggering the fallback. -/
inductive McpNativeFetch where
  | fetched (tools resources : List McpItem) (server_name : Option String)
  | raised
deriving Repr

/-- mcp_discovery.py MCPDiscoveryStrategy.discover. -/
def mcp_discover (base : BaseInfo) (fetch : McpNativeFetch) : Option DiscoveredAgent :=
  match base.port with
  | none => none
  | some _ =>
      let endpoint := build_endpoint_url base
      match fetch with
      | .raised => some (mcp_fallback_discovery base endpoint)
      | .fetched tools resources server_name =>
          let fetched_name := server_name.getD base.container_name
          let agent_name :=
            if fetched_name = "" ∨ fetched_name = "unknown" then
              labelsGetD base.labels "agent.name" base.container_name
            else fetched_name
          some { agent_id := "mcp-" ++ base.container_name
                 name := agent_name
                 protocol := ProtocolType.mcp
                 endpoint := endpoint
                 capabilities := parse_mcp_capabilities tools resources
                 status := AgentStatus.healthy
                 last_health_check := none
                 container_id := some base.container_id
                 version := some base.version }

/-- Outcome of the generic strategy's single HTTP probe of the root
endpoint: a response status code, or the request raised. -/
inductive ProbeOutcome where
  | status (code : Nat)
  | raised
deriving DecidableEq, Repr

/-- protocols/base.py _parse_label_capabilities: names from the
agent.capabilities label, plus one capability for the agent.type label
when it is set and not already among the parsed names. -/
def parse_label_capabilities (labels : List (String × String)) : List AgentCapability :=
  let cap_string := labelsGetD labels "agent.capabilities" ""
  let capabilities :=
    if cap_string = "" then []
    else (pySplit cap_string ',').filterMap (fun raw =>
      let cap_name := pyStrip raw
      if cap_name = "" then none
      else some (mkCapability cap_name ("Capability: " ++ cap_name) ["container-label"]))
  let agent_type := labelsGetD labels "agent.type" ""
  if agent_type ≠ "" ∧ (capabilities.map (fun c => c.name)).contains agent_type = false then
    capabilities ++ [mkCapability agent_type ("Agent type: " ++ agent_type) ["agent-type"]]
  else capabilities

/-- protocols/base.py GenericDiscoveryStrategy.discover: unlike the three
dialect strategies, a failed or non-200 probe reaches `return None`
even when the port (and hence the endpoint) is known. -/
def generic_discover (base : BaseInfo) (probe : ProbeOutcome) : Option DiscoveredAgent :=
  match base.port with
  | none => none
  | some _ =>
      let endpoint := build_endpoint_url base
      match probe with
      | .raised => none
      | .status code =>
          if code = 200 then
            some { agent_id := "generic-" ++ base.container_name
                   name := labelsGetD base.labels "agent.name" base.container_name
                   protocol := ProtocolType.custom
                   endpoint := endpoint
                   capabilities := parse_label_capabilities base.labels
                   status := AgentStatus.healthy
                   last_health_check := none
                   container_id := some base.container_id
                   version := some base.version }
          else none

/-- Per-protocol counting used by get_registry_stats: the Python statement
protocol_counts[protocol] = protocol_counts.get(protocol, 0) + 1, i.e.
increment the existing binding or append a fresh one. -/
def bumpCount : List (String × Nat) → String → List (String × Nat)
  | [], k => [(k, 1)]
  | (k', v) :: rest, k =>
      if k' = k then (k', v + 1) :: rest else (k', v) :: bumpCount rest k

/-- The statistics dict returned by get_registry_stats. -/
structure RegistryStats where
  total_agents : Nat
  healthy_agents : Nat
  degraded_agents : Nat
  unhealthy_agents : Nat
  by_protocol : List (String × Nat)
deriving DecidableEq, Repr

/-- discovery.py UnifiedDiscoveryService.get_registry_stats. -/
def get_registry_stats (reg : AgentRegistry) : RegistryStats :=
  { total_agents := reg.length
    healthy_agents := reg.countP (fun p => p.2.agent.status = AgentStatus.healthy)
    degraded_agents := reg.countP (fun p => p.2.agent.status = AgentStatus.degraded)
    unhealthy_agents := reg.countP (fun p => p.2.agent.status = AgentStatus.unhealthy)
    by_protocol := reg.foldl (fun acc p => bumpCount acc p.2.agent.protocol.value) [] }

/-- Total of a protocol-count dict. -/
def sumCounts (counts : List (String × Nat)) : Nat :=
  (counts.map (fun p => p.2)).sum

/-! Concrete inputs taken from the repository's own test
test_discovery_enhanced.py::test_get_agents_by_capability_with_tags: a math
agent whose single capability is named "arithmetic operations" and carries
the tags ["math", "arithmetic", "calculation"]. -/

/-- The math agent from the repository's tag-matching test. -/
def mathAgent : DiscoveredAgent :=
  { agent_id := "math-agent"
    name := "Math Agent"
    protocol := ProtocolType.a2a
    endpoint := "http://math:8002"
    capabilities := [mkCapability "arithmetic operations" "Basic arithmetic" ["math", "arithmetic", "calculation"]]
    status := AgentStatus.healthy
    last_health_check := none
    container_id := none
    version := none }

/-- The registry entry wrapping the math agent. -/
def mathEntry : AgentRegistryEntry :=
  { agent := mathAgent, last_seen := 0, consecutive_failures := 0, request_count := 0, last_request := none }

/-- A registry holding exactly the math agent. -/
def mathRegistry : AgentRegistry :=
  [("math-agent", mathEntry)]

/-- The math agent's entry carrying three accumulated failures. -/
def staleMathEntry : AgentRegistryEntry :=
  { agent := mathAgent, last_seen := 0, consecutive_failures := 3, request_count := 0, last_request := none }

/-- A registry whose one entry already has three consecutive failures. -/
def staleMathRegistry : AgentRegistry :=
  [("math-agent", staleMathEntry)]

/-- A concrete discovery candidate with a known port and no labels. -/
def exBase : BaseInfo :=
  { container_id := "abc123"
    container_name := "custom-agent"
    version := "0.0.0"
    port := some 8080
    labels := [] }

/-- A concrete routing request. -/
def exRequest : RoutingRequest :=
  { request_id := "r1", query := "what is 2 + 2", preferred_agent := none }

/-- A concrete decision that selected the math agent. -/
def staleDecision : RoutingDecision :=
  { request_id := "r1"
    selected_agent := some mathAgent
    reasoning := "math query routed to the math agent"
    confidence := 9 / 10
    alternative_agents := []
    error := none
    decision_time_ms := none
    llm_provider := none }

end Orchestrator

namespace Orchestrator

/-! Helper lemmas about registry lookups. -/

lemma lookupEntry_map_update_self (reg : AgentRegistry) (agent_id : String)
    (f : AgentRegistryEntry → AgentRegistryEntry) :
    lookupEntry (reg.map (fun p => if p.1 = agent_id then (p.1, f p.2) else p)) agent_id =
      (lookupEntry reg agent_id).map f := by
  induction reg with
  | nil => rfl
  | cons hd tl ih =>
      obtain ⟨k, e⟩ := hd
      by_cases hk : k = agent_id
      · subst hk
        simp only [List.map_cons]
        have hhd : (if True then (k, f e) else (k, e)) = (k, f e) := if_pos trivial
        rw [hhd]
        simp only [lookupEntry]
        rw [List.find?_cons_of_pos _ (by simp), List.find?_cons_of_pos _ (by simp)]
        rfl
      · simp only [List.map_cons]
        rw [if_neg hk]
        simp only [lookupEntry] at ih ⊢
        rw [List.find?_cons_of_neg _ (by simp [hk]), List.find?_cons_of_neg _ (by simp [hk])]
        exact ih

lemma lookupEntry_map_update_other (reg : AgentRegistry) (agent_id other_id : String)
    (f : AgentRegistryEntry → AgentRegistryEntry) (h : other_id ≠ agent_id) :
    lookupEntry (reg.map (fun p => if p.1 = agent_id then (p.1, f p.2) else p)) other_id =
      lookupEntry reg other_id := by
  induction reg with
  | nil => rfl
  | cons hd tl ih =>
      obtain ⟨k, e⟩ := hd
      by_cases hk : k = agent_id
      · subst hk
        have hne : ¬(k = other_id) := fun hc => h hc.symm
        simp only [List.map_cons]
        have hhd : (if True then (k, f e) else (k, e)) = (k, f e) := if_pos trivial
        rw [hhd]
        simp only [lookupEntry] at ih ⊢
        rw [List.find?_cons_of_neg _ (by simp [hne]), List.find?_cons_of_neg _ (by simp [hne])]
        exact ih
      · simp only [List.map_cons]
        rw [if_neg hk]
        simp only [lookupEntry] at ih ⊢
        by_cases hk2 : k = other_id
        · rw [List.find?_cons_of_pos _ (by simp [hk2]), List.find?_cons_of_pos _ (by simp [hk2])]
        · rw [List.find?_cons_of_neg _ (by simp [hk2]), List.find?_cons_of_neg _ (by simp [hk2])]
          exact ih

/-- C9: mark_agent_request on a missing id leaves the registry unchanged;
on a present id it increments exactly that entry's request_count by 1 and
sets last_request, leaving the entry's other fields (agent, last_seen,
consecutive_failures) and every other entry untouched. -/
theorem C9_mark_agent_request_frame (reg : AgentRegistry) (agent_id : String) (now : Int) :
    (lookupEntry reg agent_id = none → mark_agent_request reg agent_id now = reg) ∧
    (∀ e, lookupEntry reg agent_id = some e →
      lookupEntry (mark_agent_request reg agent_id now) agent_id =
        some { e with request_count := e.request_count + 1, last_request := some now } ∧
      (∀ other_id, other_id ≠ agent_id →
        lookupEntry (mark_agent_request reg agent_id now) other_id = lookupEntry reg other_id)) := by
  constructor
  · intro h
    unfold mark_agent_request
    rw [h]
  · intro e he
    unfold mark_agent_request
    rw [he]
    constructor
    · rw [lookupEntry_map_update_self reg agent_id (fun e => mark_request e now), he]
      rfl
    · intro other_id hne
      exact lookupEntry_map_update_other reg agent_id other_id (fun e => mark_request e now) hne

/-- C9 witness: instantiating the frame theorem on the one-agent registry,
the looked-up entry after mark_agent_request has request_count 1 and
last_request 7. -/
theorem C9_mark_agent_request_frame_witness :
    lookupEntry (mark_agent_request mathRegistry "math-agent" 7) "math-agent" =
      some ({ agent := mathAgent, last_seen := 0, consecutive_failures := 0,
              request_count := 1, last_request := some 7 } : AgentRegistryEntry) :=
  ((C9_mark_agent_request_frame mathRegistry "math-agent" 7).2 mathEntry (by decide)).1

/-! Helper lemmas for the statistics claim. -/

lemma sumCounts_bumpCount (counts : List (String × Nat)) (k : String) :
    sumCounts (bumpCount counts k) = sumCounts counts + 1 := by
  induction counts with
  | nil => rfl
  | cons hd tl ih =>
      obtain ⟨k', v⟩ := hd
      by_cases hk : k' = k
      · simp [bumpCount, hk, sumCounts]
        omega
      · simp only [bumpCount, if_neg hk]
        simp only [sumCounts, List.map_cons, List.sum_cons] at ih ⊢
        omega

lemma sumCounts_foldl_bump (l : AgentRegistry) (acc : List (String × Nat)) :
    sumCounts (l.foldl (fun acc p => bumpCount acc p.2.agent.protocol.value) acc) =
      sumCounts acc + l.length := by
  induction l generalizing acc with
  | nil => simp
  | cons hd tl ih =>
      simp only [List.foldl_cons, List.length_cons, ih, sumCounts_bumpCount]
      omega

/-- C10: get_registry_stats reports total_agents equal to the number of
registry entries, the by_protocol counts sum exactly to total_agents, and
healthy_agents equals the length of the list get_healthy_agents returns. -/
theorem C10_registry_stats_consistent (reg : AgentRegistry) :
    (get_registry_stats reg).total_agents = reg.length ∧
    sumCounts (get_registry_stats reg).by_protocol = (get_registry_stats reg).total_agents ∧
    (get_registry_stats reg).healthy_agents = (get_healthy_agents reg).length := by
  refine ⟨rfl, ?_, ?_⟩
  · simpa [get_registry_stats, sumCounts] using sumCounts_foldl_bump reg []
  · simp [get_registry_stats, get_healthy_agents, List.countP_eq_length_filter]

end Orchestrator

namespace Orchestrator

/-- C1: the capability lookup consults only capability names, never tags.
On the repository's own test input (capability named "arithmetic
operations" with tag "math"), has_capability "math" is false and the
registry lookup by the token "math" (and "MATH") returns no agents, even
though the tag list contains "math" — contradicting the spec and the
repository's tests, which require tag-inclusive matching. -/
theorem C1_tag_matching_code_eval :
    (mathAgent.capabilities.map (fun c => c.tags.contains "math")) = [true] ∧
    mathAgent.has_capability "math" = false ∧
    mathAgent.has_capability "MATH" = false ∧
    get_agents_by_capability mathRegistry "math" = [] ∧
    get_agents_by_capability mathRegistry "MATH" = [] := by
  refine ⟨rfl, ?_, ?_, ?_, ?_⟩ <;> decide

/-- C3: after the cleanup pass, an entry remains in the registry exactly
when its consecutive_failures is below 5 and its last_seen is within one
hour (3600 seconds) of now. -/
theorem C3_cleanup_retention (reg : AgentRegistry) (now : Int)
    (agent_id : String) (e : AgentRegistryEntry) :
    (agent_id, e) ∈ cleanup_registry reg now ↔
      ((agent_id, e) ∈ reg ∧ e.consecutive_failures < 5 ∧ now - e.last_seen ≤ 3600) := by
  unfold cleanup_registry
  simp only [List.mem_filter, Bool.and_eq_true, Bool.not_eq_true', decide_eq_false_iff_not,
    should_remove, not_le, not_lt]
  constructor
  · rintro ⟨hmem, hseen, hfail⟩
    exact ⟨hmem, hfail, by omega⟩
  · rintro ⟨hmem, hfail, hseen⟩
    exact ⟨hmem, by omega, hfail⟩

/-- C3 witness: a concrete entry with 4 failures seen 5 minutes ago is
kept; instantiating the retention theorem at it. -/
theorem C3_cleanup_retention_witness :
    ("recent-agent",
      ({ agent := mathAgent, last_seen := 3300, consecutive_failures := 4,
         request_count := 0, last_request := none } : AgentRegistryEntry)) ∈
      cleanup_registry
        [("recent-agent",
          ({ agent := mathAgent, last_seen := 3300, consecutive_failures := 4,
             request_count := 0, last_request := none } : AgentRegistryEntry))] 3600 := by
  exact (C3_cleanup_retention _ 3600 _ _).mpr ⟨List.mem_singleton.mpr rfl, by decide, by decide⟩

end Orchestrator

namespace Orchestrator

/-! Lemmas and theorems about one reconciliation merge (_update_registry). -/

lemma mark_failure_injective : Function.Injective mark_failure := by
  intro a b h
  cases a
  cases b
  simp only [mark_failure, AgentRegistryEntry.mk.injEq] at h ⊢
  obtain ⟨h1, h2, h3, h4, h5⟩ := h
  exact ⟨h1, h2, by omega, h4, h5⟩

lemma update_registry_single (reg : AgentRegistry) (agent : DiscoveredAgent)
    (health : String → HealthResult) (now : Int) :
    update_registry reg [agent] health now =
      (agent.agent_id, processDiscovered reg health now agent) ::
        reg.filterMap (fun p =>
          if (lookupEntry [(agent.agent_id, processDiscovered reg health now agent)] p.1).isSome then none
          else
            let failed := mark_failure p.2
            if should_remove failed 5 then none else some (p.1, failed)) := rfl

lemma lookupEntry_update_single (reg : AgentRegistry) (agent : DiscoveredAgent)
    (health : String → HealthResult) (now : Int) :
    lookupEntry (update_registry reg [agent] health now) agent.agent_id =
      some (processDiscovered reg health now agent) := by
  rw [update_registry_single]
  unfold lookupEntry
  rw [List.find?_cons_of_pos _ (by simp)]
  rfl

lemma processDiscovered_failures_healthy (reg : AgentRegistry) (agent : DiscoveredAgent)
    (health : String → HealthResult) (now : Int)
    (h : health agent.agent_id = HealthResult.ok AgentStatus.healthy) :
    (processDiscovered reg health now agent).consecutive_failures = 0 := by
  unfold processDiscovered
  rw [h]
  cases hl : lookupEntry reg agent.agent_id <;>
    simp [mark_success, newEntry]

lemma processDiscovered_failures_nonhealthy (reg : AgentRegistry) (agent : DiscoveredAgent)
    (health : String → HealthResult) (now : Int) (s : AgentStatus)
    (hs : s ≠ AgentStatus.healthy) (h : health agent.agent_id = HealthResult.ok s) :
    (processDiscovered reg health now agent).consecutive_failures = 1 := by
  unfold processDiscovered
  rw [h]
  cases hl : lookupEntry reg agent.agent_id <;>
    simp [hs, mark_failure, mark_success, newEntry]

lemma processDiscovered_failures_err (reg : AgentRegistry) (agent : DiscoveredAgent)
    (health : String → HealthResult) (now : Int)
    (h : health agent.agent_id = HealthResult.err) :
    (processDiscovered reg health now agent).consecutive_failures = 1 := by
  unfold processDiscovered
  rw [h]
  cases hl : lookupEntry reg agent.agent_id <;>
    simp [mark_failure, mark_success, newEntry]

/-- C2 counterexample: an entry holding 3 consecutive failures whose agent
is rediscovered with a non-Healthy health check ends the merge with
consecutive_failures 1 (the rediscovery path resets the counter before the
health check marks the failure), not the claimed 3 + 1. -/
theorem C2_increment_counterexample :
    ((lookupEntry (update_registry staleMathRegistry [mathAgent]
        (fun _ => HealthResult.ok AgentStatus.unhealthy) 50) "math-agent").map
      (fun e => e.consecutive_failures)) = some 1 ∧
    staleMathEntry.consecutive_failures + 1 ≠ 1 := by
  exact ⟨by decide, by decide⟩

/-- C2 amended: across one merge with a single discovered agent, the
rediscovered entry's consecutive_failures becomes 0 when the health check
is Healthy and exactly 1 — regardless of its previous value — when the
check is non-Healthy or raises (rediscovery resets the counter before the
failure is marked); an entry whose agent is not discovered keeps its
identity with consecutive_failures incremented by exactly 1, remaining in
the registry iff that incremented value is below 5. -/
theorem C2_failure_counting (reg : AgentRegistry) (agent : DiscoveredAgent)
    (health : String → HealthResult) (now : Int) :
    (health agent.agent_id = HealthResult.ok AgentStatus.healthy →
      (lookupEntry (update_registry reg [agent] health now) agent.agent_id).map
        (fun e => e.consecutive_failures) = some 0) ∧
    (∀ s, s ≠ AgentStatus.healthy → health agent.agent_id = HealthResult.ok s →
      (lookupEntry (update_registry reg [agent] health now) agent.agent_id).map
        (fun e => e.consecutive_failures) = some 1) ∧
    (health agent.agent_id = HealthResult.err →
      (lookupEntry (update_registry reg [agent] health now) agent.agent_id).map
        (fun e => e.consecutive_failures) = some 1) ∧
    (∀ agent_id e, (agent_id, e) ∈ reg → agent_id ≠ agent.agent_id →
      ((agent_id, mark_failure e) ∈ update_registry reg [agent] health now ↔
        e.consecutive_failures + 1 < 5)) := by
  refine ⟨?_, ?_, ?_, ?_⟩
  · intro h
    rw [lookupEntry_update_single, Option.map_some',
      processDiscovered_failures_healthy reg agent health now h]
  · intro s hs h
    rw [lookupEntry_update_single, Option.map_some',
      processDiscovered_failures_nonhealthy reg agent health now s hs h]
  · intro h
    rw [lookupEntry_update_single, Option.map_some',
      processDiscovered_failures_err reg agent health now h]
  · intro agent_id e hmem hne
    rw [update_registry_single]
    constructor
    · intro hin
      rcases List.mem_cons.mp hin with hhd | htl
      · exact absurd (congrArg Prod.fst hhd) (by simpa using hne)
      · obtain ⟨p, hp, hfp⟩ := List.mem_filterMap.mp htl
        dsimp only at hfp
        by_cases hc1 : (lookupEntry [(agent.agent_id, processDiscovered reg health now agent)] p.1).isSome = true
        · rw [if_pos hc1] at hfp
          cases hfp
        · rw [if_neg hc1] at hfp
          by_cases hc2 : should_remove (mark_failure p.2) 5 = true
          · rw [if_pos hc2] at hfp
            cases hfp
          · rw [if_neg hc2] at hfp
            simp only [Option.some_inj, Prod.mk.injEq] at hfp
            obtain ⟨hfst, hsnd⟩ := hfp
            have hpe : p.2 = e := mark_failure_injective hsnd
            simp only [should_remove, mark_failure, decide_eq_true_eq, not_le] at hc2
            rw [hpe] at hc2
            exact hc2
    · intro hlt
      apply List.mem_cons_of_mem
      apply List.mem_filterMap.mpr
      refine ⟨(agent_id, e), hmem, ?_⟩
      have hc1 : (lookupEntry [(agent.agent_id, processDiscovered reg health now agent)] agent_id).isSome = false := by
        unfold lookupEntry
        rw [List.find?_cons_of_neg _ (by simp [Ne.symm hne])]
        rfl
      dsimp only
      rw [if_neg (by rw [hc1]; exact Bool.false_ne_true)]
      rw [if_neg (by simp only [should_remove, mark_failure, decide_eq_true_eq, not_le]; omega)]

/-- C2 witness: instantiating the amended theorem on an entry with three
prior failures whose agent is rediscovered Healthy, the counter resets
to 0. -/
theorem C2_failure_counting_witness :
    (lookupEntry (update_registry staleMathRegistry [mathAgent]
        (fun _ => HealthResult.ok AgentStatus.healthy) 50) "math-agent").map
      (fun e => e.consecutive_failures) = some 0 :=
  (C2_failure_counting staleMathRegistry mathAgent
    (fun _ => HealthResult.ok AgentStatus.healthy) 50).1 rfl

/-- C8: a refresh cycle whose discovery step raises leaves the registry
exactly as it was — no entry is added, removed, or changed (the source
catches the exception at refresh's top level before the merge runs). -/
theorem C8_refresh_failsafe (reg : AgentRegistry)
    (health : String → HealthResult) (now : Int) :
    refresh reg DiscoveryOutcome.raised health now = reg := rfl

end Orchestrator

namespace Orchestrator

/-! Theorems about the ACP health check mapping. -/

/-- C4 counterexample: a 200 response whose body has no parseable status
(the "status" field is missing or empty, so the extracted string is "")
is mapped to Unknown, not to Healthy as the claim states. -/
theorem C4_empty_status_counterexample :
    acp_health_check (AcpHealthFetch.response 200 (Except.ok "")) = AgentStatus.unknown ∧
    AgentStatus.unknown ≠ AgentStatus.healthy := by
  exact ⟨rfl, by decide⟩

/-- C4 amended: a 200 response's status maps "healthy" to Healthy,
"degraded"/"warning" to Degraded, "unhealthy"/"error"/"critical" to
Unhealthy (all case-insensitively); any non-200 response is Unhealthy; a
raised request is Unknown; a 200 response whose status is missing, empty,
or unparseable is Unknown — not Healthy as claimed — while a present but
unrecognized non-empty status is Healthy.  The function is total, so no
exception reaches the caller. -/
theorem C4_health_mapping :
    (∀ s, pyLower s = "healthy" →
      acp_health_check (AcpHealthFetch.response 200 (Except.ok s)) = AgentStatus.healthy) ∧
    (∀ s, pyLower s = "degraded" ∨ pyLower s = "warning" →
      acp_health_check (AcpHealthFetch.response 200 (Except.ok s)) = AgentStatus.degraded) ∧
    (∀ s, pyLower s = "unhealthy" ∨ pyLower s = "error" ∨ pyLower s = "critical" →
      acp_health_check (AcpHealthFetch.response 200 (Except.ok s)) = AgentStatus.unhealthy) ∧
    (∀ status_code json_status, status_code ≠ 200 →
      acp_health_check (AcpHealthFetch.response status_code json_status) = AgentStatus.unhealthy) ∧
    (acp_health_check AcpHealthFetch.fetchError = AgentStatus.unknown) ∧
    (∀ s, pyLower s = "" →
      acp_health_check (AcpHealthFetch.response 200 (Except.ok s)) = AgentStatus.unknown) ∧
    (acp_health_check (AcpHealthFetch.response 200 (Except.error ())) = AgentStatus.unknown) ∧
    (∀ s, pyLower s ∉ (["healthy", "degraded", "warning", "unhealthy", "error", "critical", ""] : List String) →
      acp_health_check (AcpHealthFetch.response 200 (Except.ok s)) = AgentStatus.healthy) := by
  refine ⟨?_, ?_, ?_, ?_, rfl, ?_, rfl, ?_⟩
  · intro s h
    simp [acp_health_check, acp_map_status, h]
  · rintro s (h | h) <;> simp [acp_health_check, acp_map_status, h]
  · rintro s (h | h | h) <;> simp [acp_health_check, acp_map_status, h]
  · intro status_code json_status h
    simp [acp_health_check, h]
  · intro s h
    simp [acp_health_check, acp_map_status, h]
  · intro s h
    simp only [List.mem_cons, List.not_mem_nil, or_false, not_or] at h
    obtain ⟨h1, h2, h3, h4, h5, h6, h7⟩ := h
    simp [acp_health_check, acp_map_status, h1, h2, h3, h4, h5, h6, h7]

/-- C4 witness: the amended mapping applied to the concrete status string
"HEALTHY" in a 200 response yields Healthy. -/
theorem C4_health_mapping_witness :
    acp_health_check (AcpHealthFetch.response 200 (Except.ok "HEALTHY")) = AgentStatus.healthy :=
  C4_health_mapping.1 "HEALTHY" (by decide)

/-! Theorems about routing. -/

/-- C6: when the decision-backend invocation raises, route_request returns
a decision with confidence 0, no selected agent, and the raised message in
the error field (so the error is non-None); being a total function of the
run outcome, route_request itself never raises. -/
theorem C6_route_request_failsafe (request : RoutingRequest) (msg : String)
    (duration_ms : ℚ) (provider : LLMProvider) :
    (route_request request (AgentRunOutcome.raised msg) duration_ms provider).confidence = 0 ∧
    (route_request request (AgentRunOutcome.raised msg) duration_ms provider).selected_agent = none ∧
    (route_request request (AgentRunOutcome.raised msg) duration_ms provider).error = some msg := by
  exact ⟨rfl, rfl, rfl⟩

/-- C7: when the decision's selected agent is no longer in the healthy set
at execution time, process_request fails with the dedicated
"no longer available" error and reason label "agent_not_available", which
differs — in both the reason label and the error message — from the
"no_agent_selected" failure returned when no agent was selected. -/
theorem C7_stale_selection_distinct (request : RoutingRequest) (decision : RoutingDecision)
    (healthy : List DiscoveredAgent) (selected : DiscoveredAgent)
    (hsel : decision.selected_agent = some selected)
    (hgone : healthy.any (fun a => a.agent_id = selected.agent_id) = false) :
    (process_request request decision healthy).success = false ∧
    (process_request request decision healthy).error =
      some ("Selected agent " ++ selected.agent_id ++ " is no longer available") ∧
    (process_request request decision healthy).reason = some "agent_not_available" ∧
    (∀ request2 decision2 healthy2, decision2.selected_agent = none →
      (process_request request2 decision2 healthy2).reason = some "no_agent_selected" ∧
      (process_request request2 decision2 healthy2).error ≠
        (process_request request decision healthy).error) := by
  have hres : process_request request decision healthy =
      { request_id := request.request_id
        agent_id := selected.agent_id
        protocol := selected.protocol
        success := false
        error := some ("Selected agent " ++ selected.agent_id ++ " is no longer available")
        reason := some "agent_not_available" } := by
    unfold process_request
    rw [hsel]
    dsimp only
    rw [if_neg (by rw [hgone]; exact Bool.false_ne_true)]
  refine ⟨by rw [hres], by rw [hres], by rw [hres], ?_⟩
  intro request2 decision2 healthy2 hnone
  have hres2 : process_request request2 decision2 healthy2 =
      { request_id := request2.request_id
        agent_id := "none"
        protocol := ProtocolType.custom
        success := false
        error := some "No suitable agent found for this request"
        reason := some "no_agent_selected" } := by
    unfold process_request
    rw [hnone]
  refine ⟨by rw [hres2], ?_⟩
  rw [hres, hres2]
  simp only [AgentResponse.error, Option.some_inj, ne_eq]
  intro h
  have h2 := congrArg (fun t => t.data.head?) h
  simp [String.data_append] at h2

/-- C7 witness: instantiating the stale-selection theorem at a concrete
decision selecting the math agent while the healthy set is empty. -/
theorem C7_stale_selection_distinct_witness :
    (process_request exRequest staleDecision []).reason = some "agent_not_available" :=
  (C7_stale_selection_distinct exRequest staleDecision [] mathAgent rfl rfl).2.2.1

end Orchestrator

namespace Orchestrator

/-! Theorems about the discovery strategies. -/

/-- C5 counterexample: the generic fallback strategy returns None when its
HTTP probe raises, even though the candidate's port — and hence a network
location — is known, contradicting the claim that every strategy variant
returns None only when no location is resolvable. -/
theorem C5_generic_probe_counterexample :
    exBase.port = some 8080 ∧
    generic_discover exBase ProbeOutcome.raised = none := by
  exact ⟨rfl, rfl⟩

/-- C5 amended: for the ACP, A2A and MCP strategies, discover returns None
exactly when no port is resolvable, and whenever a port is known but the
dialect-native fetch fails (raises, or for A2A finds no info document) it
returns the minimal fallback agent built from the label hints; the generic
fallback strategy, however, produces an agent only when its probe returns
status 200, and returns None on a raised probe or any other status even
with a known port. -/
theorem C5_discover_soft_fallback :
    (∀ base native, acp_discover base native = none ↔ base.port = none) ∧
    (∀ base query, a2a_discover base query = none ↔ base.port = none) ∧
    (∀ base fetch, mcp_discover base fetch = none ↔ base.port = none) ∧
    (∀ base p, base.port = some p →
      acp_discover base AcpNativeFetch.raised =
        some (acp_fallback_discovery base (build_endpoint_url base)) ∧
      a2a_discover base A2AQueryOutcome.raised =
        some (a2a_fallback_discovery base (build_endpoint_url base)) ∧
      a2a_discover base A2AQueryOutcome.noInfo =
        some (a2a_fallback_discovery base (build_endpoint_url base)) ∧
      mcp_discover base McpNativeFetch.raised =
        some (mcp_fallback_discovery base (build_endpoint_url base))) ∧
    (∀ base probe, generic_discover base probe = none ↔
      (base.port = none ∨ probe ≠ ProbeOutcome.status 200)) := by
  refine ⟨?_, ?_, ?_, ?_, ?_⟩
  · intro base native
    cases hp : base.port <;> cases native <;> simp [acp_discover, hp]
  · intro base query
    cases hp : base.port <;> cases query <;> simp [a2a_discover, hp]
  · intro base fetch
    cases hp : base.port <;> cases fetch <;> simp [mcp_discover, hp]
  · intro base p hp
    refine ⟨?_, ?_, ?_, ?_⟩ <;>
      simp [acp_discover, a2a_discover, mcp_discover, hp]
  · intro base probe
    cases hp : base.port with
    | none => cases probe <;> simp [generic_discover, hp]
    | some p =>
        cases probe with
        | raised => simp [generic_discover, hp]
        | status code =>
            by_cases hc : code = 200 <;> simp [generic_discover, hp, hc]

/-- C5 witness: instantiating the amended theorem on the concrete
candidate with port 8080, the ACP strategy's raised native fetch still
yields the fallback agent. -/
theorem C5_discover_soft_fallback_witness :
    acp_discover exBase AcpNativeFetch.raised =
      some (acp_fallback_discovery exBase (build_endpoint_url exBase)) :=
  (C5_discover_soft_fallback.2.2.2.1 exBase 8080 rfl).1

end Orchestrator
